import Mathlib

/-!
Shallow embedding of the product CRUD facade of
`src/controllers/productController.js`: five handlers (`createProduct`,
`getProducts`, `getProduct`, `updateProduct`, `deleteProduct`) over a
Firestore "products" collection.  Documents are association lists of field
values; the collection is an association list keyed by document id, in
iteration order.  Each handler performs exactly one store call inside a
`try`/`catch`; the `fail` argument models the outcome of that call:
`some msg` is a thrown error whose `.message` is `msg`, `none` is success.
-/

namespace NodeFirebase

/-- A JSON-like field value held in a stored document. -/
inductive Value where
  | vStr : String → Value
  | vNum : Int → Value
  | vBool : Bool → Value
  deriving DecidableEq, Repr

/-- A document: field names bound to values, first binding wins on lookup. -/
abbrev Doc := List (String × Value)

/-- The "products" collection: documents keyed by id, in iteration order. -/
abbrev Store := List (String × Doc)

/-- Field access on a document; a missing field is `none`, mirroring the
JavaScript `undefined` returned for an absent property of `doc.data()`. -/
def lookupField (f : String) : Doc → Option Value
  | [] => none
  | (g, v) :: rest => if g = f then some v else lookupField f rest

/-- Document access by id, mirroring Firestore `getDoc` on
`doc(db, "products", id)`: `some` exactly when the snapshot exists. -/
def lookupDocId (i : String) : Store → Option Doc
  | [] => none
  | (j, d) :: rest => if j = i then some d else lookupDocId i rest

/-- Firestore `addDoc` on the "products" collection: the body is written
as-is under a store-generated id. -/
def addDocStore (store : Store) (freshId : String) (data : Doc) : Store :=
  store ++ [(freshId, data)]

/-- Modelled from the spec: the store's `update-merge` capability (the
document-store SDK is an external collaborator, not under `src/`).  A field
present in `upd` overrides; a field absent from `upd` keeps the old value;
`lookupField` prefers the update since the first binding wins. -/
def mergeDoc (old upd : Doc) : Doc :=
  upd ++ old

/-- Modelled from the spec: the store applied to `updateDoc`: merge-update
the document with id `i`, creating-or-merging when it is absent. -/
def updateDocStore (i : String) (upd : Doc) : Store → Store
  | [] => [(i, upd)]
  | (j, d) :: rest =>
    if j = i then (j, mergeDoc d upd) :: rest
    else (j, d) :: updateDocStore i upd rest

/-- Firestore `deleteDoc`: removes the document with id `i`; deleting an
absent id leaves the collection unchanged and succeeds. -/
def deleteDocStore (i : String) : Store → Store
  | [] => []
  | (j, d) :: rest =>
    if j = i then deleteDocStore i rest else (j, d) :: deleteDocStore i rest

/-- Modelled from the spec: `src/models/productModel.js` is imported by the
controller but missing from `src/`; per the spec's data model a `Product`
carries the document id together with the `name`, `price`, `retailer` and
`amountInStock` fields, each possibly absent. -/
structure Product where
  id : String
  name : Option Value
  price : Option Value
  retailer : Option Value
  amountInStock : Option Value
  deriving DecidableEq, Repr

/-- `new Product(doc.id, doc.data().name, doc.data().price,
doc.data().retailer, doc.data().amountInStock)`. -/
def productOfDoc (i : String) (d : Doc) : Product :=
  ⟨i, lookupField "name" d, lookupField "price" d,
    lookupField "retailer" d, lookupField "amountInStock" d⟩

/-- The `forEach`/`push` loop of `getProducts`: builds `productArray` by
appending one `Product` per document, in iteration order. -/
def buildProductArray (docs : List (String × Doc)) : List Product :=
  List.foldl (fun arr p => arr ++ [productOfDoc p.1 p.2]) [] docs

/-- An HTTP response body: plain text, a JSON array of products, or the raw
fields of a single document. -/
inductive Body where
  | text : String → Body
  | jsonArr : List Product → Body
  | jsonDoc : Doc → Body
  deriving DecidableEq, Repr

/-- An HTTP response: status code and body. -/
structure Response where
  status : Nat
  body : Body
  deriving DecidableEq, Repr

/-- `createProduct`: writes `req.body` via `addDoc` and answers
200 "product created successfully"; a thrown error is caught and answered
400 with the error's message. -/
def createProduct (store : Store) (freshId : String) (data : Doc)
    (fail : Option String) : Store × Response :=
  match fail with
  | some msg => (store, ⟨400, Body.text msg⟩)
  | none =>
    (addDocStore store freshId data,
      ⟨200, Body.text "product created successfully"⟩)

/-- `getProducts`: fetches all documents via `getDocs`; answers
400 "No Products found" when the snapshot is empty, otherwise 200 with the
array built by the `forEach` loop; a thrown error is caught and answered
400 with the error's message. -/
def getProducts (store : Store) (fail : Option String) : Response :=
  match fail with
  | some msg => ⟨400, Body.text msg⟩
  | none =>
    if store.isEmpty then ⟨400, Body.text "No Products found"⟩
    else ⟨200, Body.jsonArr (buildProductArray store)⟩

/-- `getProduct`: fetches the document with id `i` via `getDoc`; answers
200 with `data.data()` when it exists, 404 "product not found" otherwise; a
thrown error is caught and answered 400 with the error's message. -/
def getProduct (store : Store) (i : String) (fail : Option String) :
    Response :=
  match fail with
  | some msg => ⟨400, Body.text msg⟩
  | none =>
    match lookupDocId i store with
    | some d => ⟨200, Body.jsonDoc d⟩
    | none => ⟨404, Body.text "product not found"⟩

/-- `updateProduct`: merge-updates the document with id `i` via `updateDoc`
with no existence check, then answers 200 "product updated successfully"; a
thrown error is caught and answered 400 with the error's message. -/
def updateProduct (store : Store) (i : String) (data : Doc)
    (fail : Option String) : Store × Response :=
  match fail with
  | some msg => (store, ⟨400, Body.text msg⟩)
  | none =>
    (updateDocStore i data store,
      ⟨200, Body.text "product updated successfully"⟩)

/-- `deleteProduct`: deletes the document with id `i` via `deleteDoc` with
no existence check and answers 200 "product deleted successfully"; a thrown
error is caught and answered 400 with the error's message. -/
def deleteProduct (store : Store) (i : String) (fail : Option String) :
    Store × Response :=
  match fail with
  | some msg => (store, ⟨400, Body.text msg⟩)
  | none =>
    (deleteDocStore i store, ⟨200, Body.text "product deleted successfully"⟩)

/-! ### Helper lemmas -/

theorem lookupField_append (f : String) (xs ys : Doc) :
    lookupField f (xs ++ ys) =
      match lookupField f xs with
      | some v => some v
      | none => lookupField f ys := by
  induction xs with
  | nil => rfl
  | cons p rest ih =>
    obtain ⟨g, v⟩ := p
    by_cases h : g = f
    · simp [lookupField, h]
    · simp [lookupField, h, ih]

theorem lookupDocId_append (i : String) (xs ys : Store) :
    lookupDocId i (xs ++ ys) =
      match lookupDocId i xs with
      | some d => some d
      | none => lookupDocId i ys := by
  induction xs with
  | nil => rfl
  | cons p rest ih =>
    obtain ⟨j, d⟩ := p
    by_cases h : j = i
    · simp [lookupDocId, h]
    · simp [lookupDocId, h, ih]

theorem lookupField_mergeDoc (old upd : Doc) (f : String) :
    lookupField f (mergeDoc old upd) =
      match lookupField f upd with
      | some v => some v
      | none => lookupField f old :=
  lookupField_append f upd old

theorem lookupDocId_updateDocStore (i : String) (upd : Doc) (store : Store) :
    lookupDocId i (updateDocStore i upd store) =
      match lookupDocId i store with
      | some d => some (mergeDoc d upd)
      | none => some upd := by
  induction store with
  | nil => simp [updateDocStore, lookupDocId]
  | cons p rest ih =>
    obtain ⟨j, d⟩ := p
    by_cases h : j = i
    · simp [updateDocStore, lookupDocId, h]
    · simp [updateDocStore, lookupDocId, h, ih]

theorem buildProductArray_foldl (docs : List (String × Doc))
    (acc : List Product) :
    List.foldl (fun arr p => arr ++ [productOfDoc p.1 p.2]) acc docs =
      acc ++ docs.map (fun p => productOfDoc p.1 p.2) := by
  induction docs generalizing acc with
  | nil => simp
  | cons p rest ih => simp [List.foldl, ih]

theorem buildProductArray_eq_map (docs : List (String × Doc)) :
    buildProductArray docs = docs.map (fun p => productOfDoc p.1 p.2) := by
  simpa using buildProductArray_foldl docs []

/-! ### Claims -/

/-- C1 counterexample: on an empty collection `getProducts` does not answer
with the body "no products found"; the code's literal is capitalised. -/
theorem c1_counterexample :
    getProducts [] none ≠ Response.mk 400 (Body.text "no products found") := by
  decide

/-- C1 (amended): `list()` on an empty products collection responds with
HTTP status 400 and the exact plain-text body "No Products found" — not an
empty array and not a 200. -/
theorem c1_list_empty (store : Store) (h : store.isEmpty = true) :
    getProducts store none = ⟨400, Body.text "No Products found"⟩ := by
  simp [getProducts, h]

theorem c1_list_empty_witness :
    ([] : Store).isEmpty = true ∧
      getProducts [] none = ⟨400, Body.text "No Products found"⟩ :=
  ⟨rfl, c1_list_empty [] rfl⟩

/-- C2: for each of the five operations, any failure raised by its single
store call is caught and answered as HTTP 400 with the failure's message as
the plain-text body; the handlers are total functions, so no error
propagates past the operation boundary, and on the success path only the
explicit get-one 404 and empty-list cases are distinguished. -/
theorem c2_catch_all (msg : String) (store : Store) (i freshId : String)
    (data : Doc) :
    (createProduct store freshId data (some msg)).2 = ⟨400, Body.text msg⟩ ∧
    getProducts store (some msg) = ⟨400, Body.text msg⟩ ∧
    getProduct store i (some msg) = ⟨400, Body.text msg⟩ ∧
    (updateProduct store i data (some msg)).2 = ⟨400, Body.text msg⟩ ∧
    (deleteProduct store i (some msg)).2 = ⟨400, Body.text msg⟩ :=
  ⟨rfl, rfl, rfl, rfl, rfl⟩

/-- C3: `get-one(id)` answers 200 with the raw stored document fields (not
wrapped in the `Product` shape) when the document exists, and 404 with the
plain-text body "product not found" when it is absent. -/
theorem c3_get_one (store : Store) (i : String) :
    (∀ d, lookupDocId i store = some d →
        getProduct store i none = ⟨200, Body.jsonDoc d⟩) ∧
    (lookupDocId i store = none →
        getProduct store i none = ⟨404, Body.text "product not found"⟩) := by
  constructor
  · intro d hd
    simp [getProduct, hd]
  · intro h
    simp [getProduct, h]

theorem c3_get_one_witness :
    getProduct [("a", [("name", Value.vStr "w")])] "a" none
        = ⟨200, Body.jsonDoc [("name", Value.vStr "w")]⟩ ∧
    getProduct [("a", [("name", Value.vStr "w")])] "b" none
        = ⟨404, Body.text "product not found"⟩ :=
  ⟨(c3_get_one [("a", [("name", Value.vStr "w")])] "a").1
      [("name", Value.vStr "w")] (by decide),
    (c3_get_one [("a", [("name", Value.vStr "w")])] "b").2 (by decide)⟩

/-- C4: `create(P)` followed by `list()` yields a collection containing a
document whose fields equal `P`, stored under the store-assigned id
`freshId` — an id not already in the collection, so not supplied by the
caller's payload, which is written unchanged. -/
theorem c4_create_then_list (store : Store) (freshId : String) (data : Doc)
    (hfresh : lookupDocId freshId store = none) :
    (createProduct store freshId data none).2
        = ⟨200, Body.text "product created successfully"⟩ ∧
    lookupDocId freshId (createProduct store freshId data none).1
        = some data ∧
    getProducts (createProduct store freshId data none).1 none
        = ⟨200, Body.jsonArr (buildProductArray (addDocStore store freshId data))⟩ ∧
    productOfDoc freshId data
        ∈ buildProductArray (addDocStore store freshId data) := by
  refine ⟨rfl, ?_, ?_, ?_⟩
  · show lookupDocId freshId (addDocStore store freshId data) = some data
    rw [addDocStore, lookupDocId_append, hfresh]
    simp [lookupDocId]
  · show getProducts (addDocStore store freshId data) none = _
    simp [getProducts, addDocStore]
  · rw [buildProductArray_eq_map, addDocStore]
    simp

theorem c4_create_then_list_witness :
    lookupDocId "f1" ([] : Store) = none ∧
      productOfDoc "f1" [("name", Value.vStr "Widget")]
        ∈ buildProductArray (addDocStore [] "f1" [("name", Value.vStr "Widget")]) :=
  ⟨rfl,
    (c4_create_then_list [] "f1" [("name", Value.vStr "Widget")] rfl).2.2.2⟩

/-- C5: `update(id, partial)` followed by `get-one(id)` answers 200 with the
merged document: every field present in `partial` carries its updated value
and every other stored field retains its prior value (merge, not replace). -/
theorem c5_update_merge (store : Store) (i : String) (d upd : Doc)
    (hmem : lookupDocId i store = some d) :
    getProduct (updateProduct store i upd none).1 i none
        = ⟨200, Body.jsonDoc (mergeDoc d upd)⟩ ∧
    (∀ f v, lookupField f upd = some v →
        lookupField f (mergeDoc d upd) = some v) ∧
    (∀ f, lookupField f upd = none →
        lookupField f (mergeDoc d upd) = lookupField f d) := by
  refine ⟨?_, ?_, ?_⟩
  · show getProduct (updateDocStore i upd store) i none = _
    have h := lookupDocId_updateDocStore i upd store
    rw [hmem] at h
    simp [getProduct, h]
  · intro f v hv
    rw [lookupField_mergeDoc, hv]
  · intro f hf
    rw [lookupField_mergeDoc, hf]

theorem c5_update_merge_witness :
    lookupDocId "a"
        [("a", [("name", Value.vStr "w"), ("price", Value.vNum 5)])]
        = some [("name", Value.vStr "w"), ("price", Value.vNum 5)] ∧
    getProduct
        (updateProduct
          [("a", [("name", Value.vStr "w"), ("price", Value.vNum 5)])]
          "a" [("price", Value.vNum 7)] none).1 "a" none
        = ⟨200, Body.jsonDoc
            (mergeDoc [("name", Value.vStr "w"), ("price", Value.vNum 5)]
              [("price", Value.vNum 7)])⟩ ∧
    lookupField "price"
        (mergeDoc [("name", Value.vStr "w"), ("price", Value.vNum 5)]
          [("price", Value.vNum 7)]) = some (Value.vNum 7) ∧
    lookupField "name"
        (mergeDoc [("name", Value.vStr "w"), ("price", Value.vNum 5)]
          [("price", Value.vNum 7)])
        = lookupField "name" [("name", Value.vStr "w"), ("price", Value.vNum 5)] :=
  ⟨rfl,
    (c5_update_merge
      [("a", [("name", Value.vStr "w"), ("price", Value.vNum 5)])] "a"
      [("name", Value.vStr "w"), ("price", Value.vNum 5)]
      [("price", Value.vNum 7)] rfl).1,
    (c5_update_merge
      [("a", [("name", Value.vStr "w"), ("price", Value.vNum 5)])] "a"
      [("name", Value.vStr "w"), ("price", Value.vNum 5)]
      [("price", Value.vNum 7)] rfl).2.1 "price" (Value.vNum 7) rfl,
    (c5_update_merge
      [("a", [("name", Value.vStr "w"), ("price", Value.vNum 5)])] "a"
      [("name", Value.vStr "w"), ("price", Value.vNum 5)]
      [("price", Value.vNum 7)] rfl).2.2 "name" rfl⟩

/-- C6: the update handler performs no existence check: on an absent
document id it does not answer not-found but, under the store's
create-or-merge semantics, answers 200 "product updated successfully" and
the document now exists with the supplied fields. -/
theorem c6_update_absent (store : Store) (i : String) (upd : Doc)
    (habs : lookupDocId i store = none) :
    (updateProduct store i upd none).2
        = ⟨200, Body.text "product updated successfully"⟩ ∧
    lookupDocId i (updateProduct store i upd none).1 = some upd := by
  refine ⟨rfl, ?_⟩
  show lookupDocId i (updateDocStore i upd store) = some upd
  have h := lookupDocId_updateDocStore i upd store
  rwa [habs] at h

theorem c6_update_absent_witness :
    lookupDocId "ghost" ([] : Store) = none ∧
    (updateProduct [] "ghost" [("name", Value.vStr "w")] none).2
        = ⟨200, Body.text "product updated successfully"⟩ ∧
    lookupDocId "ghost"
        (updateProduct [] "ghost" [("name", Value.vStr "w")] none).1
        = some [("name", Value.vStr "w")] :=
  ⟨rfl,
    (c6_update_absent [] "ghost" [("name", Value.vStr "w")] rfl).1,
    (c6_update_absent [] "ghost" [("name", Value.vStr "w")] rfl).2⟩

/-- C7: the create handler applies no type or presence validation: any body
shape `data` whatsoever is written as-is and answered 200 "product created
successfully", and reading the fresh id back returns exactly the persisted
payload. -/
theorem c7_create_no_validation (store : Store) (freshId : String)
    (data : Doc) (hfresh : lookupDocId freshId store = none) :
    (createProduct store freshId data none).2
        = ⟨200, Body.text "product created successfully"⟩ ∧
    getProduct (createProduct store freshId data none).1 freshId none
        = ⟨200, Body.jsonDoc data⟩ := by
  refine ⟨rfl, ?_⟩
  show getProduct (addDocStore store freshId data) freshId none = _
  have h : lookupDocId freshId (addDocStore store freshId data) = some data := by
    rw [addDocStore, lookupDocId_append, hfresh]
    simp [lookupDocId]
  simp [getProduct, h]

theorem c7_create_no_validation_witness :
    lookupDocId "f1" ([] : Store) = none ∧
    (createProduct [] "f1" [("bogus", Value.vBool true)] none).2
        = ⟨200, Body.text "product created successfully"⟩ ∧
    getProduct (createProduct [] "f1" [("bogus", Value.vBool true)] none).1
        "f1" none = ⟨200, Body.jsonDoc [("bogus", Value.vBool true)]⟩ :=
  ⟨rfl,
    (c7_create_no_validation [] "f1" [("bogus", Value.vBool true)] rfl).1,
    (c7_create_no_validation [] "f1" [("bogus", Value.vBool true)] rfl).2⟩

/-- C8: for every id — the absent ones included — the delete handler
answers 200 "product deleted successfully": it makes no existence check and
deleting an absent id succeeds silently. -/
theorem c8_delete_always_200 (store : Store) (i : String) :
    (deleteProduct store i none).2
        = ⟨200, Body.text "product deleted successfully"⟩ :=
  rfl

/-- C9: on a non-empty collection, `list()` answers 200 with a JSON array
holding one `Product` per stored document — built from the document's id
and its `name`, `price`, `retailer` and `amountInStock` fields — in the
store's iteration order, with no sorting applied. -/
theorem c9_list_nonempty (store : Store) (h : store.isEmpty = false) :
    getProducts store none
        = ⟨200, Body.jsonArr (store.map (fun p => productOfDoc p.1 p.2))⟩ := by
  simp [getProducts, h, buildProductArray_eq_map]

theorem c9_list_nonempty_witness :
    ([("a", [("name", Value.vStr "w")]),
      ("b", [("name", Value.vStr "z")])] : Store).isEmpty = false ∧
    getProducts
        [("a", [("name", Value.vStr "w")]), ("b", [("name", Value.vStr "z")])]
        none
      = ⟨200, Body.jsonArr
          [productOfDoc "a" [("name", Value.vStr "w")],
            productOfDoc "b" [("name", Value.vStr "z")]]⟩ :=
  ⟨rfl,
    c9_list_nonempty
      [("a", [("name", Value.vStr "w")]), ("b", [("name", Value.vStr "z")])]
      rfl⟩

/-- C10: list and get-one differ in field coverage: two stored documents
agreeing on `name`, `price`, `retailer` and `amountInStock` produce the
same list response — extra fields are dropped and absent ones are missing —
while get-one returns each document's stored fields verbatim. -/
theorem c10_projection_vs_raw (i : String) (d1 d2 : Doc)
    (hn : lookupField "name" d1 = lookupField "name" d2)
    (hp : lookupField "price" d1 = lookupField "price" d2)
    (hr : lookupField "retailer" d1 = lookupField "retailer" d2)
    (ha : lookupField "amountInStock" d1 = lookupField "amountInStock" d2) :
    getProducts [(i, d1)] none = getProducts [(i, d2)] none ∧
    getProduct [(i, d1)] i none = ⟨200, Body.jsonDoc d1⟩ ∧
    getProduct [(i, d2)] i none = ⟨200, Body.jsonDoc d2⟩ := by
  refine ⟨?_, ?_, ?_⟩
  · have hpd : productOfDoc i d1 = productOfDoc i d2 := by
      simp [productOfDoc, hn, hp, hr, ha]
    simp [getProducts, buildProductArray_eq_map, hpd]
  · simp [getProduct, lookupDocId]
  · simp [getProduct, lookupDocId]

theorem c10_projection_vs_raw_witness :
    lookupField "name" [("name", Value.vStr "w"), ("color", Value.vStr "red")]
        = lookupField "name" [("name", Value.vStr "w")] ∧
    getProducts
        [("a", [("name", Value.vStr "w"), ("color", Value.vStr "red")])] none
      = getProducts [("a", [("name", Value.vStr "w")])] none ∧
    getProduct
        [("a", [("name", Value.vStr "w"), ("color", Value.vStr "red")])]
        "a" none
      = ⟨200, Body.jsonDoc
          [("name", Value.vStr "w"), ("color", Value.vStr "red")]⟩ ∧
    ([("name", Value.vStr "w"), ("color", Value.vStr "red")] : Doc)
        ≠ [("name", Value.vStr "w")] :=
  ⟨by decide,
    (c10_projection_vs_raw "a"
      [("name", Value.vStr "w"), ("color", Value.vStr "red")]
      [("name", Value.vStr "w")]
      (by decide) (by decide) (by decide) (by decide)).1,
    (c10_projection_vs_raw "a"
      [("name", Value.vStr "w"), ("color", Value.vStr "red")]
      [("name", Value.vStr "w")]
      (by decide) (by decide) (by decide) (by decide)).2.1,
    by decide⟩

end NodeFirebase
